import Mathlib

/-!
Verification of the event-handling core of zutty (src/main.cc): the OSC
handler (`handleOsc`), the X11 event dispatcher (`x11Event`) and the
event loop (`eventLoop`).  The collaborating classes (Vterm, base64,
SelectionManager) are not part of the sources; where a claim depends on
their behaviour, a definition modelled from the design specification is
used and clearly marked.
-/

namespace Zutty

/-! ## Base64 codec

Modelled from the spec: `src/base64.h` is not among the sources; the spec
says OSC 52 payloads are "base64-encoded" / "base64-decoded", i.e. the
standard RFC 4648 alphabet with `=` padding. Bytes are `Nat` values < 256. -/

/-- Modelled from the spec: the standard base64 alphabet character for a
6-bit value. -/
def b64Char (n : Nat) : Char :=
  (String.toList "ABCDEFGHIJKLMNOPQRSTUVWXYZabcdefghijklmnopqrstuvwxyz0123456789+/").getD n 'A'

/-- Modelled from the spec: base64-encode a byte sequence (RFC 4648, with
`=` padding). -/
def base64Encode : List Nat → List Char
  | [] => []
  | [a] => [b64Char (a / 4), b64Char (a % 4 * 16), '=', '=']
  | [a, b] => [b64Char (a / 4), b64Char (a % 4 * 16 + b / 16), b64Char (b % 16 * 4), '=']
  | a :: b :: c :: rest =>
      b64Char (a / 4) :: b64Char (a % 4 * 16 + b / 16) ::
      b64Char (b % 16 * 4 + c / 64) :: b64Char (c % 64) :: base64Encode rest

/-- Modelled from the spec: the 6-bit value of a base64 alphabet character. -/
def b64Val (c : Char) : Option Nat :=
  if 'A' ≤ c ∧ c ≤ 'Z' then some (c.toNat - 65)
  else if 'a' ≤ c ∧ c ≤ 'z' then some (c.toNat - 97 + 26)
  else if '0' ≤ c ∧ c ≤ '9' then some (c.toNat - 48 + 52)
  else if c = '+' then some 62
  else if c = '/' then some 63
  else none

/-- Modelled from the spec: base64-decode a character sequence in groups of
four, honouring `=` padding; a non-alphabet character stops the decode. -/
def base64Decode : List Char → List Nat
  | a :: b :: c :: d :: rest =>
    match b64Val a, b64Val b with
    | some va, some vb =>
      let o1 := va * 4 + vb / 16
      if c = '=' then [o1]
      else
        match b64Val c with
        | some vc =>
          let o2 := vb % 16 * 16 + vc / 4
          if d = '=' then [o1, o2]
          else
            match b64Val d with
            | some vd => o1 :: o2 :: (vc % 4 * 64 + vd) :: base64Decode rest
            | none => [o1, o2]
        | none => [o1]
    | _, _ => []
  | _ => []

/-! ## OSC handler (`handleOsc`, src/main.cc lines 641-685)

`handleOsc (dpy, win, cmd, arg)` dispatches on `cmd`.  For command 52 it
splits `arg` at the first `;` (`arg.find_first_of(";")` plus the two
`substr` calls); a missing `;` is logged and ignored.  A payload of `?`
registers a `getSelection` callback that writes
`"\x1b]52;;" ++ base64::encode (s) ++ "\x1b\x5c"` to the PTY for the
selection `s` it is handed; any other payload is base64-decoded and passed
to `selMgr->setSelection`.  The embedding composes the handler with that
callback applied to the currently stored selection. -/

/-- `arg.find_first_of(";")` followed by `substr (0, p)` / `substr (p + 1)`:
`none` when no `;` occurs, otherwise the parts before and after the first `;`. -/
def splitFirstSemi : List Char → Option (List Char × List Char)
  | [] => none
  | c :: rest =>
    if c = ';' then some ([], rest)
    else
      match splitFirstSemi rest with
      | none => none
      | some (pre, post) => some (c :: pre, post)

/-- The byte sequence the OSC 52 query callback writes to the PTY for
selection content `sel`: `ESC ] 5 2 ; ;` then the base64 text, then `ESC \`. -/
def osc52Response (sel : List Nat) : List Nat :=
  [27, 93, 53, 50, 59, 59] ++ (base64Encode sel).map Char.toNat ++ [27, 92]

/-- Observable outcome of one `handleOsc` call (with the OSC 52 query
callback already applied to the stored selection `sel`). -/
structure OscResult where
  ptyOut : List Nat
  selSet : Option (List Nat)
  titleSet : Option (List Char)
  loggedMalformed : Bool
deriving DecidableEq, Repr

/-- Embedding of `handleOsc` (src/main.cc lines 641-685).  `cmd` is the C
`int` command; `arg` the payload string; `sel` the selection content the
`getSelection` callback would be handed. -/
def handleOsc (sel : List Nat) (cmd : Int) (arg : List Char) : OscResult :=
  if cmd = 0 ∨ cmd = 2 then
    { ptyOut := [], selSet := none, titleSet := some arg, loggedMalformed := false }
  else if cmd = 52 then
    match splitFirstSemi arg with
    | none =>
      { ptyOut := [], selSet := none, titleSet := none, loggedMalformed := true }
    | some (_pc, pd) =>
      if pd = ['?'] then
        { ptyOut := osc52Response sel, selSet := none, titleSet := none,
          loggedMalformed := false }
      else
        { ptyOut := [], selSet := some (base64Decode pd), titleSet := none,
          loggedMalformed := false }
  else
    { ptyOut := [], selSet := none, titleSet := none, loggedMalformed := false }

/-! ## X keysym and modifier-mask constants (X11/keysymdef.h, X.h)

Values of the constants `main.cc` matches on. -/

def XK_Return : Nat := 0xFF0D
def XK_BackSpace : Nat := 0xFF08
def XK_Tab : Nat := 0xFF09
def XK_Insert : Nat := 0xFF63
def XK_Delete : Nat := 0xFFFF
def XK_Home : Nat := 0xFF50
def XK_Left : Nat := 0xFF51
def XK_Up : Nat := 0xFF52
def XK_Right : Nat := 0xFF53
def XK_Down : Nat := 0xFF54
def XK_Page_Up : Nat := 0xFF55
def XK_Page_Down : Nat := 0xFF56
def XK_End : Nat := 0xFF57
def XK_F1 : Nat := 0xFFBE
def XK_F2 : Nat := 0xFFBF
def XK_F3 : Nat := 0xFFC0
def XK_F4 : Nat := 0xFFC1
def XK_F5 : Nat := 0xFFC2
def XK_F6 : Nat := 0xFFC3
def XK_F7 : Nat := 0xFFC4
def XK_F8 : Nat := 0xFFC5
def XK_F9 : Nat := 0xFFC6
def XK_F10 : Nat := 0xFFC7
def XK_F11 : Nat := 0xFFC8
def XK_F12 : Nat := 0xFFC9
def XK_F13 : Nat := 0xFFCA
def XK_F14 : Nat := 0xFFCB
def XK_F15 : Nat := 0xFFCC
def XK_F16 : Nat := 0xFFCD
def XK_F17 : Nat := 0xFFCE
def XK_F18 : Nat := 0xFFCF
def XK_F19 : Nat := 0xFFD0
def XK_F20 : Nat := 0xFFD1
def XK_KP_Space : Nat := 0xFF80
def XK_KP_Tab : Nat := 0xFF89
def XK_KP_Enter : Nat := 0xFF8D
def XK_KP_F1 : Nat := 0xFF91
def XK_KP_F2 : Nat := 0xFF92
def XK_KP_F3 : Nat := 0xFF93
def XK_KP_F4 : Nat := 0xFF94
def XK_KP_Home : Nat := 0xFF95
def XK_KP_Left : Nat := 0xFF96
def XK_KP_Up : Nat := 0xFF97
def XK_KP_Right : Nat := 0xFF98
def XK_KP_Down : Nat := 0xFF99
def XK_KP_Prior : Nat := 0xFF9A
def XK_KP_Next : Nat := 0xFF9B
def XK_KP_End : Nat := 0xFF9C
def XK_KP_Begin : Nat := 0xFF9D
def XK_KP_Insert : Nat := 0xFF9E
def XK_KP_Delete : Nat := 0xFF9F
def XK_KP_Equal : Nat := 0xFFBD
def XK_KP_Multiply : Nat := 0xFFAA
def XK_KP_Add : Nat := 0xFFAB
def XK_KP_Separator : Nat := 0xFFAC
def XK_KP_Subtract : Nat := 0xFFAD
def XK_KP_Decimal : Nat := 0xFFAE
def XK_KP_Divide : Nat := 0xFFAF
def XK_KP_0 : Nat := 0xFFB0
def XK_KP_1 : Nat := 0xFFB1
def XK_KP_2 : Nat := 0xFFB2
def XK_KP_3 : Nat := 0xFFB3
def XK_KP_4 : Nat := 0xFFB4
def XK_KP_5 : Nat := 0xFFB5
def XK_KP_6 : Nat := 0xFFB6
def XK_KP_7 : Nat := 0xFFB7
def XK_KP_8 : Nat := 0xFFB8
def XK_KP_9 : Nat := 0xFFB9
def XK_Shift_L : Nat := 0xFFE1
def XK_Shift_R : Nat := 0xFFE2
def XK_Control_L : Nat := 0xFFE3
def XK_Control_R : Nat := 0xFFE4
def XK_Caps_Lock : Nat := 0xFFE5
def XK_Shift_Lock : Nat := 0xFFE6
def XK_Meta_L : Nat := 0xFFE7
def XK_Meta_R : Nat := 0xFFE8
def XK_Alt_L : Nat := 0xFFE9
def XK_Alt_R : Nat := 0xFFEA
def XK_Super_L : Nat := 0xFFEB
def XK_Super_R : Nat := 0xFFEC
def XK_Hyper_L : Nat := 0xFFED
def XK_Hyper_R : Nat := 0xFFEE
def XK_space : Nat := 0x0020

def ShiftMask : Nat := 1
def ControlMask : Nat := 4
def Mod1Mask : Nat := 8
def Button1Mask : Nat := 256
def Button3Mask : Nat := 1024

def POLLIN : Nat := 1
def POLLHUP : Nat := 16

/-! ## Key and modifier types (vterm.h interface of Vterm)

The `VtKey` tags sent through `vt->writePty (Key, mod)` and the modifier
set produced by `convertKeyState`. -/

inductive VtKey where
  | Return | Backspace | Tab | Insert | Delete | Home | End
  | Up | Down | Left | Right | PageUp | PageDown
  | F1 | F2 | F3 | F4 | F5 | F6 | F7 | F8 | F9 | F10
  | F11 | F12 | F13 | F14 | F15 | F16 | F17 | F18 | F19 | F20
  | KP_0 | KP_1 | KP_2 | KP_3 | KP_4 | KP_5 | KP_6 | KP_7 | KP_8 | KP_9
  | KP_F1 | KP_F2 | KP_F3 | KP_F4
  | KP_Up | KP_Down | KP_Left | KP_Right | KP_PageUp | KP_PageDown
  | KP_Plus | KP_Insert | KP_Delete | KP_Begin | KP_Home | KP_End
  | KP_Minus | KP_Star | KP_Slash | KP_Comma | KP_Dot | KP_Equal
  | KP_Space | KP_Tab | KP_Enter
deriving DecidableEq, Repr

structure VtMod where
  shift : Bool
  control : Bool
  alt : Bool
deriving DecidableEq, Repr

/-- `convertKeyState` (src/main.cc lines 302-323): build the modifier set
from the X state mask, discarding shift for the keypad digit/decimal
keysyms where it is implicit. -/
def convertKeyState (ks state : Nat) : VtMod :=
  let shiftDiscarded :=
    ks = XK_KP_Decimal ∨
    ks = XK_KP_0 ∨ ks = XK_KP_1 ∨ ks = XK_KP_2 ∨ ks = XK_KP_3 ∨ ks = XK_KP_4 ∨
    ks = XK_KP_5 ∨ ks = XK_KP_6 ∨ ks = XK_KP_7 ∨ ks = XK_KP_8 ∨ ks = XK_KP_9
  { shift := state &&& ShiftMask ≠ 0 ∧ ¬ shiftDiscarded
    control := state &&& ControlMask ≠ 0
    alt := state &&& Mod1Mask ≠ 0 }

/-- The `KEYSEND` table of the inner `switch (ks)` (src/main.cc lines
406-479), in source order: keysym value paired with the `VtKey` sent. -/
def keySendTable : List (Nat × VtKey) :=
  [(XK_Return, .Return), (XK_BackSpace, .Backspace), (XK_Tab, .Tab),
   (XK_Insert, .Insert), (XK_Delete, .Delete), (XK_Home, .Home), (XK_End, .End),
   (XK_Up, .Up), (XK_Down, .Down), (XK_Left, .Left), (XK_Right, .Right),
   (XK_Page_Up, .PageUp), (XK_Page_Down, .PageDown),
   (XK_F1, .F1), (XK_F2, .F2), (XK_F3, .F3), (XK_F4, .F4), (XK_F5, .F5),
   (XK_F6, .F6), (XK_F7, .F7), (XK_F8, .F8), (XK_F9, .F9), (XK_F10, .F10),
   (XK_F11, .F11), (XK_F12, .F12), (XK_F13, .F13), (XK_F14, .F14),
   (XK_F15, .F15), (XK_F16, .F16), (XK_F17, .F17), (XK_F18, .F18),
   (XK_F19, .F19), (XK_F20, .F20),
   (XK_KP_0, .KP_0), (XK_KP_1, .KP_1), (XK_KP_2, .KP_2), (XK_KP_3, .KP_3),
   (XK_KP_4, .KP_4), (XK_KP_5, .KP_5), (XK_KP_6, .KP_6), (XK_KP_7, .KP_7),
   (XK_KP_8, .KP_8), (XK_KP_9, .KP_9),
   (XK_KP_F1, .KP_F1), (XK_KP_F2, .KP_F2), (XK_KP_F3, .KP_F3), (XK_KP_F4, .KP_F4),
   (XK_KP_Up, .KP_Up), (XK_KP_Down, .KP_Down), (XK_KP_Left, .KP_Left),
   (XK_KP_Right, .KP_Right), (XK_KP_Prior, .KP_PageUp), (XK_KP_Next, .KP_PageDown),
   (XK_KP_Add, .KP_Plus), (XK_KP_Insert, .KP_Insert), (XK_KP_Delete, .KP_Delete),
   (XK_KP_Begin, .KP_Begin), (XK_KP_Home, .KP_Home), (XK_KP_End, .KP_End),
   (XK_KP_Subtract, .KP_Minus), (XK_KP_Multiply, .KP_Star),
   (XK_KP_Divide, .KP_Slash), (XK_KP_Separator, .KP_Comma),
   (XK_KP_Decimal, .KP_Dot), (XK_KP_Equal, .KP_Equal),
   (XK_KP_Space, .KP_Space), (XK_KP_Tab, .KP_Tab), (XK_KP_Enter, .KP_Enter)]

/-- The `KEYIGN` clauses (src/main.cc lines 482-502): bare modifier keysyms
ignored "to avoid sending NUL bytes". -/
def keyIgnoreList : List Nat :=
  [XK_Shift_L, XK_Shift_R, XK_Control_L, XK_Control_R, XK_Caps_Lock,
   XK_Shift_Lock, XK_Meta_L, XK_Meta_R, XK_Alt_L, XK_Alt_R,
   XK_Super_L, XK_Super_R, XK_Hyper_L, XK_Hyper_R]

/-! ## Spec-modelled Vterm selection behaviour

The Vterm class is not among the sources; these definitions are modelled
from the design specification (sections 4.3 and 8). -/

/-- Modelled from the spec: `Vterm::selectFinish` "returns a boolean
indicating whether a non-empty selection exists", alongside the extracted
text `sel` (here: the text the call places into its out-parameter). -/
def selectFinishRet (sel : List Nat) : Bool := !sel.isEmpty

/-- Snap-to granularity of the Selection Engine (spec section 3). -/
inductive SnapTo where
  | char | word | line
deriving DecidableEq, Repr

/-- Modelled from the spec: with `cycleSnapTo` set, "the snap granularity
advances character → word → line → character". -/
def cycleSnap : SnapTo → SnapTo
  | .char => .word
  | .word => .line
  | .line => .char

/-- Modelled from the spec: granularity after a button-down; a press
without `cycleSnapTo` starts a fresh character-granularity selection, a
press with it advances the cycle. -/
def snapAfterPress (g : SnapTo) (cycle : Bool) : SnapTo :=
  if cycle then cycleSnap g else .char

/-- Selection Engine lifecycle state (spec section 4.3). -/
inductive SelState where
  | idle | selecting | finished
deriving DecidableEq, Repr

/-- Modelled from the spec: `selectClear` "forces `Idle` and erases any
highlight". -/
def selectClearSpec (_s : SelState) : SelState := .idle

/-! ## X11 event dispatch (`x11Event`, src/main.cc lines 325-602)

The dispatcher's observable behaviour is embedded as a pure function from
the persistent state (the `static` locals `exposed`, `lastButtonReleased`,
`lastButtonReleasedAt`, plus the by-reference `holdPtyIn`) and one X event
to the ordered list of collaborator calls it makes, the updated state, and
its return/`destroyed` values.  Environment-supplied data (looked-up key
text, `XFilterEvent` result, bytes accepted by `vt->writePty`, the
selection text `selectFinish` extracts) travel as fields of the event. -/

/-- One call made by `x11Event` on a collaborator (`vt`/`selMgr`), or the
event loop's `vt->readPty ()`. -/
inductive Call where
  | vtResize (w h : Int)
  | vtRedraw
  | pasteRequest (time : Nat)
  | rectToggle
  | writeKey (k : VtKey) (m : VtMod)
  | writeText (bytes : List Nat)
  | writeChar (b : Nat) (m : VtMod)
  | selectStart (x y : Int) (cycle : Bool)
  | selectExtend (x y : Int) (cycle : Bool)
  | selectUpdate (x y : Int)
  | selectFinish
  | setSelection (time : Nat) (text : List Nat)
  | vtSelectClear
  | selMgrSelectionClear
  | selMgrSelectionNotify
  | selMgrSelectionRequest
  | selMgrPropertyNotify
  | setHasFocus (b : Bool)
  | readPty
deriving DecidableEq, Repr

/-- A call that writes bytes to the PTY. -/
def Call.isPtyWrite : Call → Bool
  | .writeKey _ _ => true
  | .writeText _ => true
  | .writeChar _ _ => true
  | _ => false

/-- The `static` locals of `x11Event` that persist across calls. -/
structure XState where
  exposed : Bool
  lastButtonReleased : Nat
  lastButtonReleasedAt : Nat
deriving DecidableEq, Repr

/-- An X event as seen by `x11Event`, carrying the environment-supplied
data the corresponding branch consumes.  For `keyPress`: the keysym, the
`state` modifier mask, the looked-up text bytes (`buffer`, of length
`nbytes`), the `XFilterEvent` result, the count `vt->writePty` accepts,
and the event timestamp.  For `buttonRelease`: the text `selectFinish`
extracts. -/
inductive XEvent where
  | expose
  | configureNotify (w h : Int)
  | reparentNotify
  | mapNotify
  | unmapNotify
  | destroyNotify
  | keyPress (ks state : Nat) (buffer : List Nat) (filtered : Bool)
      (accepted : Nat) (time : Nat)
  | keyRelease
  | buttonPress (button : Nat) (x y : Int) (time : Nat)
  | buttonRelease (button : Nat) (time : Nat) (sel : List Nat)
  | motionNotify (x y : Int)
  | focusIn
  | focusOut
  | propertyNotify
  | selectionClear
  | selectionNotify
  | selectionRequest
  | otherEvent (t : Nat)
deriving DecidableEq, Repr

/-- Result of one `x11Event` call: updated statics, updated `holdPtyIn`,
the collaborator calls in order, the function's return value (`retTrue`),
and the `destroyed` out-parameter. -/
structure EvResult where
  st : XState
  holdPtyIn : Bool
  calls : List Call
  retTrue : Bool
  destroyed : Bool
deriving DecidableEq, Repr

def Multi_Click_Threshold_Ms : Nat := 250

/-- `Time` subtraction: `Time` is `unsigned long` (64-bit), so
`time - lastButtonReleasedAt` wraps modulo 2^64. -/
def timeSub (a b : Nat) : Nat := (a % 2 ^ 64 + (2 ^ 64 - b % 2 ^ 64)) % 2 ^ 64

/-- The `cycleSnapTo` condition of the `ButtonPress` branch (src/main.cc
lines 527-529): same button as last released, within the threshold. -/
def cycleSnapToOf (st : XState) (button time : Nat) : Bool :=
  button == st.lastButtonReleased &&
    decide (timeSub time st.lastButtonReleasedAt < Multi_Click_Threshold_Ms)

/-- The `KeyPress` branch (src/main.cc lines 362-522): Zutty-handled
combinations first, then the `KEYSEND`/`KEYIGN`/default dispatch on the
keysym.  Returns the calls, the `return true` flag (short PTY write), and
whether the branch falls through to `redraw = true`. -/
def keyPressCalls (ks state : Nat) (buffer : List Nat) (filtered : Bool)
    (accepted : Nat) (time : Nat) : List Call × Bool × Bool :=
  if (ks = XK_Insert ∨ ks = XK_KP_Insert) ∧ state = ShiftMask then
    ([.pasteRequest time], false, false)
  else if (ks = XK_space ∨ ks = XK_KP_Space) ∧
          state &&& (Button1Mask ||| Button3Mask) ≠ 0 then
    ([.rectToggle], false, false)
  else
    let mod := convertKeyState ks state
    match keySendTable.lookup ks with
    | some k => ([.writeKey k mod], false, true)
    | none =>
      if ks ∈ keyIgnoreList then ([], false, true)
      else if filtered then ([], false, true)
      else if 1 < buffer.length then
        ([.writeText buffer], decide (accepted < buffer.length), true)
      else
        ([.writeChar (buffer.headD 0) mod], decide (accepted < 1), true)

/-- Embedding of `x11Event` (src/main.cc lines 325-602). -/
def x11Event (st : XState) (hold : Bool) (ev : XEvent) : EvResult :=
  let noRedraw : List Call → EvResult := fun cs =>
    { st := st, holdPtyIn := hold, calls := cs, retTrue := false, destroyed := false }
  let withRedraw : List Call → EvResult := fun cs =>
    { st := st, holdPtyIn := hold,
      calls := cs ++ (if st.exposed then [Call.vtRedraw] else []),
      retTrue := false, destroyed := false }
  match ev with
  | .expose =>
    { st := { st with exposed := true }, holdPtyIn := hold,
      calls := [Call.vtRedraw], retTrue := false, destroyed := false }
  | .configureNotify w h => withRedraw [.vtResize w h]
  | .reparentNotify => withRedraw []
  | .mapNotify => noRedraw []
  | .unmapNotify => noRedraw []
  | .destroyNotify =>
    { st := st, holdPtyIn := hold, calls := [], retTrue := true, destroyed := true }
  | .keyPress ks state buffer filtered accepted time =>
    let (cs, short, redraw) := keyPressCalls ks state buffer filtered accepted time
    if short then
      { st := st, holdPtyIn := hold, calls := cs, retTrue := true, destroyed := false }
    else if redraw then withRedraw cs
    else noRedraw cs
  | .keyRelease => noRedraw []
  | .buttonPress button x y time =>
    let cycle := cycleSnapToOf st button time
    if button = 1 then
      { st := st, holdPtyIn := true, calls := [.selectStart x y cycle],
        retTrue := false, destroyed := false }
    else if button = 3 then
      { st := st, holdPtyIn := true, calls := [.selectExtend x y cycle],
        retTrue := false, destroyed := false }
    else noRedraw []
  | .buttonRelease button time sel =>
    let st2 := { st with lastButtonReleased := button, lastButtonReleasedAt := time }
    if button = 1 ∨ button = 3 then
      { st := st2, holdPtyIn := false,
        calls := [Call.selectFinish] ++
          (if selectFinishRet sel then [Call.setSelection time sel] else []),
        retTrue := false, destroyed := false }
    else if button = 2 then
      { st := st2, holdPtyIn := hold, calls := [.pasteRequest time],
        retTrue := false, destroyed := false }
    else
      { st := st2, holdPtyIn := hold, calls := [], retTrue := false, destroyed := false }
  | .motionNotify x y => noRedraw [.selectUpdate x y]
  | .focusIn => noRedraw [.setHasFocus true]
  | .focusOut => noRedraw [.setHasFocus false]
  | .propertyNotify => noRedraw [.selMgrPropertyNotify]
  | .selectionClear => noRedraw [.vtSelectClear, .selMgrSelectionClear]
  | .selectionNotify => noRedraw [.selMgrSelectionNotify]
  | .selectionRequest => noRedraw [.selMgrSelectionRequest]
  | .otherEvent _ => noRedraw []

/-! ## Event loop (`eventLoop`, src/main.cc lines 604-639) -/

/-- Outcome of one pass of the `while (1)` body: leave the loop returning
`destroyed`, or go round again with the updated state. -/
inductive LoopOutcome where
  | exit (destroyed : Bool)
  | next (st : XState) (hold : Bool)
deriving DecidableEq, Repr

/-- The inner `while (XPending (dpy))` drain: run `x11Event` over the
queued events until one returns true.  Yields the calls made, and either
`some destroyed` (a handler returned true) or the state to continue with. -/
def processEvents (st : XState) (hold : Bool) :
    List XEvent → List Call × XState × Bool × Option Bool
  | [] => ([], st, hold, none)
  | ev :: rest =>
    let r := x11Event st hold ev
    if r.retTrue then (r.calls, r.st, r.holdPtyIn, some r.destroyed)
    else
      let (cs, st2, h2, d) := processEvents r.st r.holdPtyIn rest
      (r.calls ++ cs, st2, h2, d)

/-- One iteration of the event-loop body.  `pollset [0].fd` is set to
`-pty_fd` while `holdPtyIn` holds; POSIX `poll` ignores a negative fd and
reports zero revents for it, so the PTY revents are masked to 0 then.
`ptyRev`/`x11Rev` are the revents `poll` would report on the two fds;
`events` the X events `XNextEvent` would drain. -/
def loopIter (st : XState) (hold : Bool) (ptyRev x11Rev : Nat)
    (events : List XEvent) : List Call × LoopOutcome :=
  let r0 := if hold then 0 else ptyRev
  if r0 &&& POLLHUP ≠ 0 then ([], .exit false)
  else
    let reads := if r0 &&& POLLIN ≠ 0 then [Call.readPty] else []
    if x11Rev &&& POLLIN ≠ 0 then
      let (cs, st2, h2, d) := processEvents st hold events
      match d with
      | some dest => (reads ++ cs, .exit dest)
      | none => (reads ++ cs, .next st2 h2)
    else (reads, .next st hold)

/-! ## Helper lemmas -/

theorem splitFirstSemi_of_no_semi : ∀ (arg : List Char), ';' ∉ arg →
    splitFirstSemi arg = none
  | [], _ => rfl
  | c :: rest, h => by
    have hc : ¬ (c = ';') := fun e => h (e ▸ List.mem_cons_self c rest)
    have ih := splitFirstSemi_of_no_semi rest (fun m => h (List.mem_cons_of_mem _ m))
    simp [splitFirstSemi, hc, ih]

/-! ## Claim theorems -/

/-- Claim C1: when the OSC handler receives command 52 with a payload whose
part after the first `;` is exactly `?`, it requests the current selection
content and writes back to the PTY exactly `ESC ] 5 2 ; ;` followed by the
base64 encoding of the stored selection and `ESC \`, changing neither the
selection nor the window title. -/
theorem osc52_query_response (sel : List Nat) (arg pc : List Char)
    (h : splitFirstSemi arg = some (pc, ['?'])) :
    handleOsc sel 52 arg =
      { ptyOut := [27, 93, 53, 50, 59, 59] ++ (base64Encode sel).map Char.toNat ++ [27, 92],
        selSet := none, titleSet := none, loggedMalformed := false } := by
  norm_num [handleOsc, h, osc52Response]

/-- Claim C1 witness: for stored selection "hello" and payload `c;?`, the
bytes written back are `ESC ] 5 2 ; ;` then `aGVsbG8=` (base64 of "hello")
verbatim, then `ESC \`. -/
theorem osc52_query_response_witness :
    handleOsc [104, 101, 108, 108, 111] 52 ['c', ';', '?'] =
      { ptyOut := [27, 93, 53, 50, 59, 59] ++
          [97, 71, 86, 115, 98, 71, 56, 61] ++ [27, 92],
        selSet := none, titleSet := none, loggedMalformed := false } := by
  have h := osc52_query_response [104, 101, 108, 108, 111] ['c', ';', '?'] ['c'] rfl
  rw [h]
  rfl

/-- Claim C2 counterexample: a key-press whose two looked-up bytes are only
partially accepted by the PTY write (1 of 2 bytes) makes `x11Event` return
true with `destroyed = false`, and the event loop thereupon exits —
the session ends rather than continuing with a retried write. -/
theorem short_write_ends_session_cex :
    x11Event ⟨true, 0, 0⟩ false (.keyPress 0 0 [104, 105] false 1 5) =
      { st := ⟨true, 0, 0⟩, holdPtyIn := false,
        calls := [Call.writeText [104, 105]], retTrue := true, destroyed := false }
    ∧ loopIter ⟨true, 0, 0⟩ false 0 1 [.keyPress 0 0 [104, 105] false 1 5] =
      ([Call.writeText [104, 105]], .exit false) :=
  ⟨rfl, rfl⟩

/-- Claim C2 (amended): for every key-press whose looked-up multi-byte text
is written to the PTY, a short write (fewer bytes accepted than offered)
makes `x11Event` return true with `destroyed = false`, with no retry of the
write, and the event loop then exits, ending the session. -/
theorem short_write_exits_loop (st : XState) (hold : Bool)
    (ks state accepted t : Nat) (buffer : List Nat)
    (h1 : keySendTable.lookup ks = none) (h2 : ks ∉ keyIgnoreList)
    (h3 : ¬ ((ks = XK_Insert ∨ ks = XK_KP_Insert) ∧ state = ShiftMask))
    (h4 : ¬ ((ks = XK_space ∨ ks = XK_KP_Space) ∧
             state &&& (Button1Mask ||| Button3Mask) ≠ 0))
    (h5 : 1 < buffer.length) (h6 : accepted < buffer.length) :
    (x11Event st hold (.keyPress ks state buffer false accepted t)).retTrue = true
    ∧ (x11Event st hold (.keyPress ks state buffer false accepted t)).destroyed = false
    ∧ (x11Event st hold (.keyPress ks state buffer false accepted t)).calls =
        [Call.writeText buffer]
    ∧ loopIter st hold 0 1 [.keyPress ks state buffer false accepted t] =
        ([Call.writeText buffer], .exit false) := by
  have hk : keyPressCalls ks state buffer false accepted t =
      ([Call.writeText buffer], true, true) := by
    unfold keyPressCalls
    rw [if_neg h3, if_neg h4, h1]
    simp [h2, h5, h6]
  refine ⟨?_, ?_, ?_, ?_⟩ <;>
    simp [x11Event, hk, loopIter, processEvents, POLLIN, POLLHUP]

/-- Claim C2 witness for the amended statement, at a concrete short write
(1 of 2 bytes accepted). -/
theorem short_write_exits_loop_witness :
    (x11Event ⟨false, 0, 0⟩ false (.keyPress 0 0 [104, 105] false 1 5)).retTrue = true
    ∧ (x11Event ⟨false, 0, 0⟩ false (.keyPress 0 0 [104, 105] false 1 5)).destroyed = false
    ∧ (x11Event ⟨false, 0, 0⟩ false (.keyPress 0 0 [104, 105] false 1 5)).calls =
        [Call.writeText [104, 105]]
    ∧ loopIter ⟨false, 0, 0⟩ false 0 1 [.keyPress 0 0 [104, 105] false 1 5] =
        ([Call.writeText [104, 105]], .exit false) :=
  short_write_exits_loop ⟨false, 0, 0⟩ false 0 0 1 5 [104, 105]
    (by decide) (by decide) (by decide) (by decide) (by decide) (by decide)

/-- Claim C3 counterexample: from a state recording button 1 released at
time 1000, presses of button 1 at time 1100 at the distinct screen
coordinates (0, 0) and (999, 888) both receive `cycleSnapTo = true`; at
most one of them can be at the previous click's coordinate, so the claimed
"exactly when … at the same (stable) screen coordinate" is false: the code
never consults the coordinates. -/
theorem cycleSnapTo_ignores_coordinates_cex :
    (x11Event ⟨true, 1, 1000⟩ false (.buttonPress 1 0 0 1100)).calls =
      [Call.selectStart 0 0 true]
    ∧ (x11Event ⟨true, 1, 1000⟩ false (.buttonPress 1 999 888 1100)).calls =
      [Call.selectStart 999 888 true] :=
  ⟨rfl, rfl⟩

/-- Claim C3 (amended): `cycleSnapTo` is passed to `selectStart` (button 1)
or `selectExtend` (button 3) and is true exactly when the pressed button
equals the previously released one and the press is within the multi-click
threshold of that release, irrespective of coordinates; the spec-modelled
snap granularity then cycles character → word → line over three such
presses and returns to character on a fourth. -/
theorem cycleSnapTo_characterization (st : XState) (hold : Bool)
    (x y : Int) (t : Nat) (g : SnapTo) :
    (∀ b, (x11Event st hold (.buttonPress b x y t)).calls =
      (if b = 1 then [Call.selectStart x y (cycleSnapToOf st b t)]
       else if b = 3 then [Call.selectExtend x y (cycleSnapToOf st b t)]
       else []))
    ∧ (∀ b, cycleSnapToOf st b t = true ↔
        (b = st.lastButtonReleased ∧
         timeSub t st.lastButtonReleasedAt < Multi_Click_Threshold_Ms))
    ∧ [false, true, true].foldl snapAfterPress g = SnapTo.line
    ∧ [false, true, true, true].foldl snapAfterPress g = SnapTo.char := by
  refine ⟨?_, ?_, rfl, rfl⟩
  · intro b
    by_cases h1 : b = 1
    · simp [x11Event, h1]
    · by_cases h3 : b = 3 <;> simp [x11Event, h1, h3]
  · intro b
    simp [cycleSnapToOf, Bool.and_eq_true, beq_iff_eq, decide_eq_true_eq]

/-- Claim C4: an OSC command-52 payload containing no `;` is logged as
malformed and ignored: no selection update, no PTY write, no title change. -/
theorem osc52_malformed_ignored (sel : List Nat) (arg : List Char)
    (h : ';' ∉ arg) :
    handleOsc sel 52 arg =
      { ptyOut := [], selSet := none, titleSet := none, loggedMalformed := true } := by
  norm_num [handleOsc, splitFirstSemi_of_no_semi arg h]

/-- Claim C4 witness: the payload `abc` (no `;`) is logged and ignored. -/
theorem osc52_malformed_ignored_witness :
    handleOsc [104] 52 ['a', 'b', 'c'] =
      { ptyOut := [], selSet := none, titleSet := none, loggedMalformed := true } :=
  osc52_malformed_ignored [104] ['a', 'b', 'c'] (by decide)

/-- Claim C5: an OSC command-52 payload with a `;` whose part after the
first `;` is not `?` is base64-decoded and installed as the new selection
content, with nothing written back to the PTY. -/
theorem osc52_install_selection (sel : List Nat) (arg pc pd : List Char)
    (h : splitFirstSemi arg = some (pc, pd)) (hq : pd ≠ ['?']) :
    handleOsc sel 52 arg =
      { ptyOut := [], selSet := some (base64Decode pd), titleSet := none,
        loggedMalformed := false } := by
  norm_num [handleOsc, h, hq]

/-- Claim C5 witness: the payload `c;aGVsbG8=` installs the decoded
selection "hello" and writes nothing to the PTY. -/
theorem osc52_install_selection_witness :
    handleOsc [] 52 ['c', ';', 'a', 'G', 'V', 's', 'b', 'G', '8', '='] =
      { ptyOut := [], selSet := some [104, 101, 108, 108, 111], titleSet := none,
        loggedMalformed := false } := by
  have h := osc52_install_selection []
    ['c', ';', 'a', 'G', 'V', 's', 'b', 'G', '8', '=']
    ['c'] ['a', 'G', 'V', 's', 'b', 'G', '8', '='] rfl (by decide)
  rw [h]
  rfl

/-- Claim C6: on release of button 1 or button 3, `selectFinish` is invoked
and the extracted text is published via `setSelection` exactly when
`selectFinish` returns true, which (spec-modelled) holds exactly when the
selection text is non-empty; when it returns false nothing is published. -/
theorem select_finish_publish_iff (st : XState) (hold : Bool)
    (b t : Nat) (sel : List Nat) (hb : b = 1 ∨ b = 3) :
    (x11Event st hold (.buttonRelease b t sel)).calls =
      [Call.selectFinish] ++
        (if selectFinishRet sel then [Call.setSelection t sel] else [])
    ∧ (selectFinishRet sel = true ↔ sel ≠ []) := by
  constructor
  · simp only [x11Event]
    rw [if_pos hb]
  · cases sel <;> simp [selectFinishRet]

/-- Claim C6 witness: releasing button 1 with extracted text `[104]`
publishes it; the publish condition coincides with non-emptiness. -/
theorem select_finish_publish_iff_witness :
    (x11Event ⟨false, 0, 0⟩ true (.buttonRelease 1 7 [104])).calls =
      [Call.selectFinish] ++
        (if selectFinishRet [104] then [Call.setSelection 7 [104]] else [])
    ∧ (selectFinishRet [104] = true ↔ [104] ≠ ([] : List Nat)) :=
  select_finish_publish_iff ⟨false, 0, 0⟩ true 1 7 [104] (Or.inl rfl)

/-- Claim C7: on an X SelectionClear event the terminal's `selectClear` is
invoked before the selection manager is notified, in exactly that order;
the spec-modelled `selectClear` forces the Selection Engine to Idle. -/
theorem selection_clear_order (st : XState) (hold : Bool) :
    (x11Event st hold .selectionClear).calls =
      [Call.vtSelectClear, Call.selMgrSelectionClear]
    ∧ ∀ s, selectClearSpec s = SelState.idle :=
  ⟨rfl, fun _ => rfl⟩

/-- Claim C8: whenever poll reports POLLHUP on the PTY descriptor, the
event-loop iteration immediately returns false to its caller — no PTY read
and no X event processing happen after the hangup. -/
theorem pollhup_exits_loop (st : XState) (ptyRev x11Rev : Nat)
    (events : List XEvent) (h : ptyRev &&& POLLHUP ≠ 0) :
    loopIter st false ptyRev x11Rev events = ([], .exit false) := by
  simp [loopIter, h]

/-- Claim C8 witness: with revents POLLHUP (16) on the PTY and a pending X
event, the loop exits at once, processing nothing. -/
theorem pollhup_exits_loop_witness :
    loopIter ⟨true, 0, 0⟩ false 16 1 [.motionNotify 0 0] = ([], .exit false) :=
  pollhup_exits_loop ⟨true, 0, 0⟩ 16 1 [.motionNotify 0 0] (by decide)

/-- How `x11Event` updates `holdPtyIn`: set on a button-1/3 press, cleared
on a button-1/3 release, untouched by every other event. -/
def holdStep (hold : Bool) : XEvent → Bool
  | .buttonPress b _ _ _ => if b = 1 ∨ b = 3 then true else hold
  | .buttonRelease b _ _ => if b = 1 ∨ b = 3 then false else hold
  | _ => hold

theorem keyPressCalls_no_readPty (ks state : Nat) (buffer : List Nat)
    (filtered : Bool) (accepted t : Nat) :
    Call.readPty ∉ (keyPressCalls ks state buffer filtered accepted t).1 := by
  unfold keyPressCalls
  repeat' split
  all_goals simp

theorem x11Event_no_readPty (st : XState) (hold : Bool) (ev : XEvent) :
    Call.readPty ∉ (x11Event st hold ev).calls := by
  cases ev with
  | keyPress ks state buffer filtered accepted t =>
    have h := keyPressCalls_no_readPty ks state buffer filtered accepted t
    simp only [x11Event]
    rcases hk : keyPressCalls ks state buffer filtered accepted t with ⟨cs, short, redraw⟩
    rw [hk] at h
    simp only at h
    cases short <;> cases redraw <;> cases hx : st.exposed <;> simp_all
  | buttonPress b x y t =>
    by_cases h1 : b = 1
    · simp [x11Event, h1]
    · by_cases h3 : b = 3 <;> cases hx : st.exposed <;> simp [x11Event, h1, h3, hx]
  | buttonRelease b t sel =>
    by_cases h13 : b = 1 ∨ b = 3
    · cases hs : selectFinishRet sel <;> simp [x11Event, h13, hs]
    · by_cases h2 : b = 2 <;> simp [x11Event, h13, h2]
  | _ => simp [x11Event]

theorem processEvents_no_readPty :
    ∀ (events : List XEvent) (st : XState) (hold : Bool),
    Call.readPty ∉ (processEvents st hold events).1
  | [], _, _ => by simp [processEvents]
  | ev :: rest, st, hold => by
    have h1 := x11Event_no_readPty st hold ev
    have ih := processEvents_no_readPty rest (x11Event st hold ev).st
      (x11Event st hold ev).holdPtyIn
    simp only [processEvents]
    split
    · exact h1
    · rcases hp : processEvents (x11Event st hold ev).st
        (x11Event st hold ev).holdPtyIn rest with ⟨cs, st2, h2, d⟩
      rw [hp] at ih
      simp_all [List.mem_append]

/-- Claim C9: while a selection drag is in progress the event loop excludes
the PTY descriptor from polling.  First, `holdPtyIn` is set by a button-1/3
press, cleared by a button-1/3 release, and untouched by every other event
(`holdStep`).  Second, an iteration entered with `holdPtyIn` set never
performs `vt->readPty`, whatever the PTY revents, since the negated fd
reports none.  Third, once `holdPtyIn` is clear again, a POLLIN on the PTY
leads to `vt->readPty` — reading resumes. -/
theorem drag_excludes_pty_polling :
    (∀ (st : XState) (hold : Bool) (ev : XEvent),
      (x11Event st hold ev).holdPtyIn = holdStep hold ev)
    ∧ (∀ (st : XState) (ptyRev x11Rev : Nat) (events : List XEvent),
      Call.readPty ∉ (loopIter st true ptyRev x11Rev events).1)
    ∧ (∀ (st : XState) (events : List XEvent),
      loopIter st false POLLIN 0 events = ([Call.readPty], .next st false)) := by
  refine ⟨?_, ?_, fun st events => rfl⟩
  · intro st hold ev
    cases ev with
    | keyPress ks state buffer filtered accepted t =>
      simp only [x11Event, holdStep]
      rcases keyPressCalls ks state buffer filtered accepted t with ⟨cs, short, redraw⟩
      cases short <;> cases redraw <;> simp
    | buttonPress b x y t =>
      by_cases h1 : b = 1
      · simp [x11Event, holdStep, h1]
      · by_cases h3 : b = 3 <;> simp [x11Event, holdStep, h1, h3]
    | buttonRelease b t sel =>
      by_cases h13 : b = 1 ∨ b = 3
      · simp [x11Event, holdStep, h13]
      · by_cases h2 : b = 2 <;> simp [x11Event, holdStep, h13, h2]
    | _ => simp [x11Event, holdStep]
  · intro st ptyRev x11Rev events
    have h := processEvents_no_readPty events st true
    rcases hp : processEvents st true events with ⟨cs, st2, h2, d⟩
    rw [hp] at h
    simp only at h
    simp only [loopIter, hp]
    norm_num
    split
    all_goals try simp
    all_goals cases d <;> simp_all

/-- Claim C10: a key press whose keysym is a bare modifier key writes no
bytes to the PTY (the event is ignored rather than sending a NUL byte),
and the handler does not abort the loop. -/
theorem modifier_keys_silent (st : XState) (hold : Bool) (ks state : Nat)
    (buffer : List Nat) (filtered : Bool) (accepted t : Nat)
    (h : ks ∈ keyIgnoreList) :
    ((x11Event st hold (.keyPress ks state buffer filtered accepted t)).calls.all
      (fun c => !c.isPtyWrite) = true)
    ∧ (x11Event st hold (.keyPress ks state buffer filtered accepted t)).retTrue
        = false := by
  have hk : keyPressCalls ks state buffer filtered accepted t = ([], false, true) := by
    fin_cases h <;> rfl
  constructor <;>
    · simp only [x11Event, hk]
      cases hx : st.exposed <;> simp [Call.isPtyWrite]

/-- Claim C10 witness: a left-Shift key press (keysym 0xFFE1) produces no
PTY write. -/
theorem modifier_keys_silent_witness :
    ((x11Event ⟨true, 0, 0⟩ false
        (.keyPress XK_Shift_L 1 [0] false 0 5)).calls.all
      (fun c => !c.isPtyWrite) = true)
    ∧ (x11Event ⟨true, 0, 0⟩ false
        (.keyPress XK_Shift_L 1 [0] false 0 5)).retTrue = false :=
  modifier_keys_silent ⟨true, 0, 0⟩ false XK_Shift_L 1 [0] false 0 5 (by decide)

end Zutty
